import Mathlib

/-!
Verification of the document-claim auditing pipeline and the university
review analyzer.

This file is a shallow embedding, in Lean 4, of the parts of the repository
that the verified properties talk about:

* `pipeline.py` — claim classification (`classify_claim_type_openrouter`),
  evidence retrieval (`retrieve_evidence_openrouter`) and claim evaluation
  (`evaluate_claim_openrouter`);
* `robust_professional_main.py` — the pattern-based claim detector
  (`use_enhanced_pattern_analysis`, `analyze_enhanced_verdict`,
  `analyze_general_institutional_content`) and the two trust scorers
  (`calculate_sophisticated_trust_score`, `calculate_pattern_based_trust_score`
  together with the five `assess_*` sub-scores);
* `university_reviews.py` — keyword sentiment tagging
  (`analyze_review_sentiment`), the generic scrapers
  (`scrape_generic_reviews`, `extract_reviews_from_html`) and the aggregation
  step (`analyze_real_review_patterns`).

External effects (the hosted language model, the web-search API, the JSON
library, the HTML parser, the clock) are modelled as explicit oracle
parameters: each embedded function takes the text such a call would have
returned.  Python strings are Lean `String`s; Python string primitives that
the code uses (`lower`, `strip`, `in`, `split`, `replace`) are re-implemented
over `String.data` so that every definition evaluates inside the kernel.
Python's `re` module is embedded as a small backtracking regex engine
(`Re.mtch`) with Python's priority semantics, and each pattern literal of the
source is transcribed into a `Re` term.
-/

/-! ## Python string primitives -/

/-- Python `str.lower()` (ASCII case folding, which covers every string the
code manipulates). -/
def pyLower (s : String) : String := ⟨s.data.map Char.toLower⟩

/-- Membership of one character list inside another, `needle` anywhere in
`hay` (Python's `needle in hay` on strings). -/
def isInfixL (needle : List Char) : List Char → Bool
  | [] => needle.isEmpty
  | c :: rest => needle.isPrefixOf (c :: rest) || isInfixL needle rest

/-- Python `sub in s` for strings. -/
def pyContains (s sub : String) : Bool := isInfixL sub.data s.data

/-- Python `str.strip()` on character lists. -/
def trimL (l : List Char) : List Char :=
  ((l.dropWhile Char.isWhitespace).reverse.dropWhile Char.isWhitespace).reverse

/-- Python `str.strip()`. -/
def pyStrip (s : String) : String := ⟨trimL s.data⟩

/-- Split a character list at every occurrence of one character (Python
`str.split(c)` for a single-character separator). -/
def splitOnCharL (c : Char) : List Char → List (List Char)
  | [] => [[]]
  | x :: rest =>
    let r := splitOnCharL c rest
    if x == c then [] :: r
    else
      match r with
      | [] => [[x]]
      | p :: ps => (x :: p) :: ps

/-- Python `s.split(sep)` for a one-character separator, on strings. -/
def pySplitChar (c : Char) (s : String) : List String :=
  (splitOnCharL c s.data).map (fun l => ⟨l⟩)

/-- Python `str.replace(old, new)` for a one-character `old` and empty `new`
(the only form the code uses, in `float(v.replace('%','').replace(',',''))`). -/
def pyEraseChar (c : Char) (s : String) : String := ⟨s.data.filter (fun x => !(x == c))⟩

/-- Numeric value of a list of decimal digit characters. -/
def natOfDigits (l : List Char) : Nat :=
  l.foldl (fun acc c => acc * 10 + (c.toNat - '0'.toNat)) 0

/-- Parse a string of the shape `digits` or `digits.digits` into a rational.
This is Python's `float(...)` restricted to the strings the code can feed it
(the capture language of its regexes after `%` and `,` are removed); on any
other string it returns `none`, which the code paths treat exactly like the
`ValueError` that `float` would raise. -/
def parseDecimalQ (s : String) : Option ℚ :=
  match splitOnCharL '.' s.data with
  | [a] => if a ≠ [] && a.all Char.isDigit then some (natOfDigits a : ℚ) else none
  | [a, b] =>
    if a ≠ [] && a.all Char.isDigit && b ≠ [] && b.all Char.isDigit then
      some ((natOfDigits a : ℚ) + (natOfDigits b : ℚ) / ((10 : ℚ) ^ b.length))
    else none
  | _ => none

/-- Python `\w` word characters (ASCII). -/
def isWordChar (c : Char) : Bool := c.isAlphanum || c == '_'

/-- Maximal runs of word characters: `re.findall(r'\b\w+\b', s)`. -/
def wordRunsL : List Char → List (List Char)
  | [] => []
  | c :: rest =>
    if isWordChar c then
      match wordRunsL rest with
      | w :: ws =>
        match rest with
        | r :: _ => if isWordChar r then (c :: w) :: ws else [c] :: w :: ws
        | [] => [c] :: ws
      | [] => [[c]]
    else wordRunsL rest

/-- Stable insertion into a list sorted descending by `key` (the new element
goes before the first element whose key is `≤` its own, so earlier elements
with equal keys stay first). -/
def insertDescBy (key : α → Nat) (x : α) : List α → List α
  | [] => [x]
  | y :: ys => if key y ≤ key x then x :: y :: ys else y :: insertDescBy key x ys

/-- Stable descending sort by a numeric key: Python
`sorted(l, key=..., reverse=True)`. -/
def sortDescBy (key : α → Nat) : List α → List α
  | [] => []
  | x :: xs => insertDescBy key x (sortDescBy key xs)

/-! ## A small regex engine with Python `re` search semantics -/

/-- Captured text of a regex group, as a list of characters (`none` when the
pattern has no capturing group, mirroring `match.groups()` being empty). -/
abbrev Cap := Option (List Char)

/-- Regex AST covering exactly the constructs appearing in the repository's
patterns: character classes, concatenation, alternation, greedy `?`, lazy `*?`,
greedy `*`, greedy `+`, and a single capturing group. -/
inductive Re where
  | eps
  | cls (p : Char → Bool)
  | seq (a b : Re)
  | alt (a b : Re)
  | opt (a : Re)
  | starL (a : Re)
  | starG (a : Re)
  | plusG (a : Re)
  | group (a : Re)

def Re.size : Re → Nat
  | .eps => 1
  | .cls _ => 1
  | .seq a b => a.size + b.size + 1
  | .alt a b => a.size + b.size + 1
  | .opt a => a.size + 1
  | .starL a => a.size + 1
  | .starG a => a.size + 1
  | .plusG a => a.size + 1
  | .group a => a.size + 1

/-- Backtracking matcher in continuation-passing style.  The continuation
receives the remaining input and the current group-1 capture.  Alternatives
are tried in the priority order of Python's `re` engine: `alt` tries the left
branch first, greedy `opt`/`starG`/`plusG` try the longer extension first,
lazy `starL` tries the empty iteration first.  The fuel only bounds recursion
depth; every call site passes more than the depth any of the transcribed
patterns can reach on its input. -/
def Re.mtch : Nat → Re → List Char → Cap → (List Char → Cap → Option (List Char × Cap)) →
    Option (List Char × Cap)
  | 0, _, _, _, _ => none
  | _ + 1, .eps, s, g, k => k s g
  | _ + 1, .cls _, [], _, _ => none
  | _ + 1, .cls p, c :: rest, g, k => if p c then k rest g else none
  | f + 1, .seq a b, s, g, k => Re.mtch f a s g (fun s' g' => Re.mtch f b s' g' k)
  | f + 1, .alt a b, s, g, k => (Re.mtch f a s g k).orElse (fun _ => Re.mtch f b s g k)
  | f + 1, .opt a, s, g, k => (Re.mtch f a s g k).orElse (fun _ => k s g)
  | f + 1, .starL a, s, g, k =>
      (k s g).orElse (fun _ => Re.mtch f a s g (fun s' g' => Re.mtch f (.starL a) s' g' k))
  | f + 1, .starG a, s, g, k =>
      (Re.mtch f a s g (fun s' g' => Re.mtch f (.starG a) s' g' k)).orElse (fun _ => k s g)
  | f + 1, .plusG a, s, g, k =>
      Re.mtch f a s g (fun s' g' =>
        (Re.mtch f (.plusG a) s' g' k).orElse (fun _ => k s' g'))
  | f + 1, .group a, s, g, k =>
      Re.mtch f a s g (fun s' _ => k s' (some (s.take (s.length - s'.length))))

/-- One match attempt anchored at the start of `s`; returns the remaining
input after the match together with the group-1 capture. -/
def Re.matchAt (r : Re) (s : List Char) : Option (List Char × Cap) :=
  Re.mtch ((s.length + 2) * (r.size + 2)) r s none (fun s' g => some (s', g))

/-- Python `re.search`: try each start position left to right; on the first
success return the group-1 capture. -/
def Re.searchCap (r : Re) (s : List Char) : Option Cap :=
  match Re.matchAt r s with
  | some (_, g) => some g
  | none =>
    match s with
    | [] => none
    | _ :: rest => Re.searchCap r rest

/-- Whether `re.search` finds any match. -/
def Re.test (r : Re) (s : List Char) : Bool :=
  (Re.searchCap r s).isSome

/-- Python `re.findall` for a pattern with one group: the group captures of
the successive non-overlapping leftmost matches. -/
def Re.findAllCap (r : Re) : Nat → List Char → List Cap
  | 0, _ => []
  | f + 1, s =>
    match Re.matchAt r s with
    | some (s', g) =>
      if s'.length == s.length then
        g :: (match s with | [] => [] | _ :: rest => Re.findAllCap r f rest)
      else g :: Re.findAllCap r f s'
    | none => match s with | [] => [] | _ :: rest => Re.findAllCap r f rest

/-- Python `re.sub(pattern, repl, s)`: replace every non-overlapping leftmost
match by `repl`. -/
def Re.gsub (r : Re) (repl : List Char) : Nat → List Char → List Char
  | 0, s => s
  | f + 1, s =>
    match Re.matchAt r s with
    | some (s', _) =>
      if s'.length == s.length then
        match s with
        | [] => repl
        | c :: rest => repl ++ c :: Re.gsub r repl f rest
      else repl ++ Re.gsub r repl f s'
    | none => match s with | [] => [] | c :: rest => c :: Re.gsub r repl f rest

/-! ### Combinators used to transcribe the source's pattern literals -/

/-- Case-sensitive literal character. -/
def rchar (c : Char) : Re := .cls (fun x => x == c)

/-- Case-insensitive literal character (for patterns compiled with
`re.IGNORECASE`). -/
def rcharI (c : Char) : Re := .cls (fun x => x.toLower == c)

def rseq (l : List Re) : Re := l.foldr .seq .eps

/-- Case-sensitive literal string. -/
def rstr (s : String) : Re := rseq (s.data.map rchar)

/-- Case-insensitive literal string. -/
def rstrI (s : String) : Re := rseq (s.data.map rcharI)

def ralts (l : List Re) : Re := l.foldr .alt (.cls (fun _ => false))

/-- Non-capturing alternation of literal strings, `(?:a|b|…)`. -/
def raltStr (l : List String) : Re := ralts (l.map rstr)

def raltStrI (l : List String) : Re := ralts (l.map rstrI)

/-- The `.` class (anything but a newline; none of the patterns set DOTALL
except the HTML review patterns, which use `rdotAll`). -/
def rdot : Re := .cls (fun c => !(c == '\n'))

/-- The `.` class under `re.DOTALL`. -/
def rdotAll : Re := .cls (fun _ => true)

def rdigit : Re := .cls Char.isDigit

/-- Greedy `\d+`. -/
def rdigits1 : Re := .plusG rdigit

def rspace : Re := .cls Char.isWhitespace

/-- Lazy `.*?`. -/
def rlazy : Re := .starL rdot

/-- Lazy `.*?` under `re.DOTALL`. -/
def rlazyAll : Re := .starL rdotAll

/-- The capture `(\d+(?:\.\d+)?%)` shared by most of the percentage rules. -/
def rePctNum : Re := rseq [rdigits1, .opt (rseq [rchar '.', rdigits1]), rchar '%']

/-- `[\d,]+(?:\.\d+)?` — the number part of the money rules. -/
def reMoneyNum : Re :=
  rseq [.plusG (.cls (fun c => c.isDigit || c == ',')), .opt (rseq [rchar '.', rdigits1])]

/-! ## Embedding of `pipeline.py` -/

/-- One evidence item as built by `retrieve_evidence_openrouter`. -/
structure EvidenceItem where
  source_query : String
  retrieved_content : String
  source : String
  relevance_score : Nat
deriving DecidableEq

/-- The type-ambiguous `evidence` field: either the sentinel string set when
nothing was found, or the list of evidence items. -/
inductive Evid where
  | str (s : String)
  | items (l : List EvidenceItem)
deriving DecidableEq

/-- A claim dictionary as passed through the `pipeline.py` stages.  Fields
that a stage may not have set yet are `Option`s; `Option.getD` plays the role
of `dict.get(key, default)`. -/
structure PipeClaim where
  claim_text : String
  source_context : String
  metadata_source : Option String
  metadata_chunk_id : Nat
  category : Option String
  evidence : Option Evid
  verdict : Option String
  evidence_summary : Option String
  verdict_reasoning : Option String
deriving DecidableEq

/-- The four category labels accepted by the classifier. -/
def valid_categories : List String :=
  ["Financial", "Operational", "Legal & Compliance",
   "Environmental, Social, and Governance (ESG)"]

/-- Embedding of `classify_claim_type_openrouter` (pipeline.py:155).  The
model's reply is the oracle parameter `responseRaw`; the code strips it
(`.content.strip()`) and keeps it only on an exact match against the four
labels, falling back to "Operational". -/
def classify_claim_type_openrouter (claim_data : PipeClaim) (responseRaw : String) : PipeClaim :=
  let response := pyStrip responseRaw
  let category := if response ∈ valid_categories then response else "Operational"
  { claim_data with category := some category }

/-- A chunk of the local evidence corpus (`evidence_chunks`), loaded at
startup from downloaded PDFs — external content, hence a parameter. -/
structure EviChunk where
  page_content : String
  source_paper : Option String
deriving DecidableEq

/-- Strip a leading enumeration marker: `re.sub(r'^\d+\.\s*', '', q)`. -/
def stripEnum (q : String) : String :=
  let l := q.data
  let ds := l.takeWhile Char.isDigit
  if ds ≠ [] && (l.drop ds.length).head? == some '.' then
    ⟨(l.drop (ds.length + 1)).dropWhile Char.isWhitespace⟩
  else q

/-- Query list parsing in `retrieve_evidence_openrouter` (pipeline.py:198):
`[re.sub(r'^\d+\.\s*', '', q).strip() for q in response.split('\n') if q.strip()]`. -/
def parseQueries (response : String) : List String :=
  ((pySplitChar '\n' response).filter (fun q => pyStrip q ≠ "")).map
    (fun q => pyStrip (stripEnum q))

/-- Keyword score of one corpus chunk against one query (pipeline.py:206-210):
the number of distinct lowercase word terms of the query that occur as
substrings of the lowercased chunk text. -/
def localChunkScore (query : String) (chunk : EviChunk) : Nat :=
  let key_terms := ((wordRunsL (pyLower query).data).map (fun l => (⟨l⟩ : String))).eraseDups
  let content_lower := pyLower chunk.page_content
  (key_terms.filter (fun term => pyContains content_lower term)).length

/-- Local evidence items collected for one query (pipeline.py:207-217): the
chunks with score > 0, in corpus order. -/
def localResultsFor (evidence_chunks : List EviChunk) (query : String) : List EvidenceItem :=
  evidence_chunks.filterMap (fun chunk =>
    let score := localChunkScore query chunk
    if score > 0 then
      some { source_query := query
             retrieved_content := chunk.page_content
             source := chunk.source_paper.getD "Local Paper"
             relevance_score := score }
    else none)

/-- The sentinel inserted by DuckDuckGo wrappers when a search yields nothing. -/
def ddgSentinel : String := "No good DuckDuckGo Search Result"

/-- Web fallback results (pipeline.py:224-235).  `search_tool.run` is the
oracle `webSearch`; `none` stands for a raised exception (caught and skipped),
and a returned text is kept only when non-empty and free of the sentinel. -/
def webResultsFor (webSearch : String → Option String) (queries : List String) :
    List EvidenceItem :=
  queries.filterMap (fun query =>
    match webSearch query with
    | none => none
    | some result_text =>
      if result_text ≠ "" && !pyContains result_text ddgSentinel then
        some { source_query := query
               retrieved_content := result_text
               source := "Web"
               relevance_score := 0 }
      else none)

/-- Embedding of `retrieve_evidence_openrouter` (pipeline.py:186).  The
model's query-generation reply is `queriesResponse`; the fixed local corpus is
`evidence_chunks`; the search API is `webSearch`. -/
def retrieve_evidence_openrouter (claim_data : PipeClaim) (queriesResponse : String)
    (evidence_chunks : List EviChunk) (webSearch : String → Option String) : PipeClaim :=
  let queries := parseQueries queriesResponse
  let localAll := queries.flatMap (localResultsFor evidence_chunks)
  let found_in_papers := queries.any (fun q => !(localResultsFor evidence_chunks q).isEmpty)
  let all_results := localAll ++ (if found_in_papers then [] else webResultsFor webSearch queries)
  if all_results.isEmpty then
    { claim_data with evidence := some (Evid.str "No reliable evidence was found.") }
  else
    let sorted_results := sortDescBy (fun x => x.relevance_score) all_results
    { claim_data with evidence := some (Evid.items (sorted_results.take 3)) }

/-- A parsed JSON object restricted to string values, the shape the
evaluation prompt requests (`json.loads` output modelled on flat string
maps; later duplicate keys overwrite earlier ones as in a Python dict). -/
abbrev JsonObj := List (String × String)

/-- Python `dict.update(result_dict)` on the string-valued report fields the
claim dictionary carries (pipeline.py:283).  A key present in the parsed
object overwrites the field; an absent key leaves it unchanged.  Note that no
validation of `verdict` happens here. -/
def pipeUpdate (claim_data : PipeClaim) (o : JsonObj) : PipeClaim :=
  { claim_data with
    claim_text := (o.lookup "claim_text").getD claim_data.claim_text
    source_context := (o.lookup "source_context").getD claim_data.source_context
    category := ((o.lookup "category").map some).getD claim_data.category
    evidence := ((o.lookup "evidence").map (fun s => some (Evid.str s))).getD claim_data.evidence
    verdict := ((o.lookup "verdict").map some).getD claim_data.verdict
    evidence_summary :=
      ((o.lookup "evidence_summary").map some).getD claim_data.evidence_summary
    verdict_reasoning :=
      ((o.lookup "verdict_reasoning").map some).getD claim_data.verdict_reasoning }

/-- Embedding of `evaluate_claim_openrouter` (pipeline.py:251).  The model's
reply is `response`; `jsonLoads` is the JSON library oracle (`none` = parse
failure, i.e. `json.loads` raised).  The outer `none` of the result stands
for the `KeyError` raised when a claim reaches this stage without an
`evidence` key; the pipeline always sets it first. -/
def evaluate_claim_openrouter (claim_data : PipeClaim) (response : String)
    (jsonLoads : String → Option JsonObj) : Option PipeClaim :=
  match claim_data.evidence with
  | none => none
  | some evidence =>
    -- `if not evidence or isinstance(evidence, str)`: any string (the
    -- sentinel) or a falsy empty list short-circuits.
    let shortCircuit :=
      match evidence with
      | Evid.str _ => true
      | Evid.items l => l.isEmpty
    if shortCircuit then
      some { claim_data with
             verdict := some "Insufficient Evidence"
             evidence_summary := some "No relevant evidence found."
             verdict_reasoning := some "The search did not yield enough evidence." }
    else
      match jsonLoads response with
      | some result_dict => some (pipeUpdate claim_data result_dict)
      | none =>
        some { claim_data with
               verdict := some "Evaluation Error"
               evidence_summary := some "Failed to parse model JSON."
               verdict_reasoning := some response }

/-! ### A concrete JSON-object parser used to instantiate the `jsonLoads`
oracle on closed inputs -/

def skipWsL (l : List Char) : List Char := l.dropWhile Char.isWhitespace

/-- Read the body of a double-quoted string literal without escapes; returns
the content and the input after the closing quote. -/
def takeStrLit : List Char → Option (List Char × List Char)
  | [] => none
  | '"' :: rest => some ([], rest)
  | c :: rest => (takeStrLit rest).map (fun p => (c :: p.1, p.2))

/-- Record a key/value pair the way a Python dict would: a later duplicate
key overwrites an earlier one. -/
def insertPairJson (o : JsonObj) (key val : String) : JsonObj :=
  (o.filter (fun p => p.1 ≠ key)) ++ [(key, val)]

def parsePairsJson : Nat → Bool → List Char → JsonObj → Option JsonObj
  | 0, _, _, _ => none
  | f + 1, allowEnd, l, acc =>
    match skipWsL l with
    | '\x7d' :: rest => if allowEnd && skipWsL rest = [] then some acc else none
    | '"' :: rest =>
      match takeStrLit rest with
      | none => none
      | some (key, r1) =>
        match skipWsL r1 with
        | ':' :: r2 =>
          match skipWsL r2 with
          | '"' :: r3 =>
            match takeStrLit r3 with
            | none => none
            | some (val, r4) =>
              let acc' := insertPairJson acc ⟨key⟩ ⟨val⟩
              match skipWsL r4 with
              | ',' :: r5 => parsePairsJson f false r5 acc'
              | '\x7d' :: r5 => if skipWsL r5 = [] then some acc' else none
              | _ => none
          | _ => none
        | _ => none
    | _ => none

/-- Parser for the JSON fragment `\x7b "key": "value", … \x7d` (flat objects
with string keys and values, no escapes).  It agrees with Python's
`json.loads` on this fragment and rejects everything outside it, so it is a
sound concrete instance of the `jsonLoads` oracle for such inputs. -/
def parseFlatJson (s : String) : Option JsonObj :=
  match trimL s.data with
  | '\x7b' :: rest => parsePairsJson (rest.length + 1) true rest []
  | _ => none

/-! ## Embedding of `robust_professional_main.py`: the pattern-based detector -/

/-- Metadata attached by the pattern-based detector.  `extracted_value` and
`confidence` are optional because the general-content claim carries neither
key (Python `metadata.get` supplies defaults downstream). -/
structure PatternMeta where
  source : String
  source_chunk_id : Nat
  claim_type : String
  extracted_value : Option String
  confidence : Option String
  analysis_method : String
deriving DecidableEq

/-- A claim dictionary as produced by `use_enhanced_pattern_analysis`. -/
structure PatternClaim where
  claim_text : String
  category : String
  verdict : String
  evidence_summary : String
  verdict_reasoning : String
  source_context : String
  metadata : PatternMeta
deriving DecidableEq

/-- The capture `(\d+(?:\.\d+)?%)`. -/
def capPct : Re := .group rePctNum

/-- The `claim_patterns` table (robust_professional_main.py:213-252), each
regex transcribed into a `Re` term, paired with its category, claim type and
confidence.  All are matched against the lowercased sentence, so literals are
case-sensitive lowercase. -/
def claim_patterns : List (Re × String × String × String) :=
  [ -- Financial patterns
    (rseq [rstr "revenue", rlazy, raltStr ["increas", "grow", "rise", "up", "jump", "boost"],
           rlazy, capPct], "Financial", "revenue_growth", "high"),
    (rseq [rstr "profit", rlazy, raltStr ["increas", "grow", "rise", "up", "surge"],
           rlazy, capPct], "Financial", "profit_growth", "high"),
    (rseq [rstr "sales", rlazy, raltStr ["reach", "achieve", "total", "hit", "exceed"],
           rlazy, .opt (rchar '$'), .group reMoneyNum, .starG rspace,
           raltStr ["million", "billion", "thousand"]], "Financial", "sales_figure", "high"),
    (rseq [raltStr ["earn", "generat"], rlazy, raltStr ["revenue", "income"],
           rlazy, .opt (rchar '$'), .group reMoneyNum, .starG rspace,
           raltStr ["million", "billion"]], "Financial", "revenue_amount", "high"),
    (rseq [rstr "cost", rlazy, raltStr ["reduc", "sav", "cut", "lower"],
           rlazy, capPct], "Financial", "cost_reduction", "medium"),
    (rseq [rstr "market", rlazy, raltStr ["cap", "value", "share"],
           rlazy, raltStr ["increas", "grow", "reach"],
           rlazy, capPct], "Financial", "market_performance", "medium"),
    (rseq [raltStr ["ebitda", "margin", "roi"], rlazy, raltStr ["improv", "increas"],
           rlazy, capPct], "Financial", "financial_metrics", "high"),
    -- ESG/Environmental patterns
    (rseq [rstr "carbon", rlazy, raltStr ["reduc", "cut", "lower", "decreas", "mitigat"],
           rlazy, capPct], "ESG", "carbon_reduction", "high"),
    (rseq [rstr "emission", rlazy, raltStr ["reduc", "decreas", "cut", "lower", "mitigat"],
           rlazy, capPct], "ESG", "emission_reduction", "high"),
    (rseq [rstr "renewable", rlazy, rstr "energy", rlazy,
           raltStr ["increas", "adopt", "implement", "reach", "achieve"],
           rlazy, capPct], "ESG", "renewable_energy", "high"),
    (rseq [rstr "sustainability", rlazy,
           raltStr ["initiative", "program", "goal", "target", "achievement", "commitment"]],
     "ESG", "sustainability_program", "medium"),
    (rseq [rstr "environmental", rlazy, raltStr ["impact", "footprint", "performance"],
           rlazy, raltStr ["reduc", "improv", "enhanc"]],
     "ESG", "environmental_impact", "medium"),
    (rseq [rstr "waste", rlazy, raltStr ["reduc", "recycl", "divert", "eliminat"],
           rlazy, capPct], "ESG", "waste_reduction", "high"),
    (rseq [rstr "water", rlazy, raltStr ["sav", "conserv", "reduc", "efficien"],
           rlazy, capPct], "ESG", "water_conservation", "medium"),
    (rseq [rstr "biodiversity", rlazy, raltStr ["protect", "conserv", "restor", "enhanc"]],
     "ESG", "biodiversity", "medium"),
    (rseq [rstr "social", rlazy, raltStr ["impact", "responsibility", "program", "initiative"]],
     "ESG", "social_impact", "medium"),
    -- Operational patterns
    (rseq [rstr "efficiency", rlazy, raltStr ["improv", "increas", "enhanc", "optim"],
           rlazy, capPct], "Operational", "efficiency_improvement", "high"),
    (rseq [rstr "productivity", rlazy, raltStr ["increas", "improv", "boost", "enhanc"],
           rlazy, capPct], "Operational", "productivity", "high"),
    (rseq [rstr "automation", rlazy,
           raltStr ["system", "implement", "deploy", "install", "adopt"]],
     "Operational", "automation", "medium"),
    (rseq [rstr "customer", rlazy, rstr "satisfaction", rlazy,
           raltStr ["reach", "achieve", "increas", "improv"],
           rlazy, capPct], "Operational", "customer_satisfaction", "high"),
    (rseq [rstr "quality", rlazy, raltStr ["improv", "increas", "enhanc", "optim"],
           rlazy, capPct], "Operational", "quality_improvement", "medium"),
    (rseq [rstr "safety", rlazy, raltStr ["record", "increas", "improv", "enhanc"],
           rlazy, capPct], "Operational", "safety_performance", "high"),
    (rseq [rstr "digital", rlazy,
           raltStr ["transformation", "innovation", "technology", "platform"]],
     "Operational", "digital_transformation", "medium"),
    (rseq [rstr "supply", rlazy, rstr "chain", rlazy,
           raltStr ["optim", "improv", "enhanc", "streamlin"]],
     "Operational", "supply_chain", "medium"),
    -- Compliance patterns
    (rseq [rstr "compliance", rlazy,
           raltStr ["maintain", "achiev", "full", "complete", "100%", "perfect"]],
     "Legal & Compliance", "compliance_status", "medium"),
    (rseq [rstr "regulatory", rlazy,
           raltStr ["requirement", "standard", "framework", "guideline"],
           rlazy, raltStr ["meet", "comply", "adher", "satisfy"]],
     "Legal & Compliance", "regulatory_compliance", "medium"),
    (rseq [raltStr ["gdpr", "sox", "iso", "hipaa", "pci", "regulation", "directive"],
           rlazy, raltStr ["complian", "certif", "audit", "implement"]],
     "Legal & Compliance", "specific_compliance", "high"),
    (rseq [rstr "audit", rlazy,
           raltStr ["pass", "successful", "clean", "clear", "complet", "satisfactory"]],
     "Legal & Compliance", "audit_result", "high"),
    (rseq [rstr "certification", rlazy,
           raltStr ["achiev", "obtain", "maintain", "renew", "award"]],
     "Legal & Compliance", "certification", "high"),
    (rseq [rstr "governance", rlazy, raltStr ["framework", "structure", "process", "policy"]],
     "Legal & Compliance", "governance", "medium"),
    (rseq [rstr "risk", rlazy, raltStr ["management", "mitigation", "assessment", "control"]],
     "Legal & Compliance", "risk_management", "medium") ]

/-- Embedding of `analyze_enhanced_verdict` (robust_professional_main.py:299).
`text` is the lowercased sentence; `extracted_value` is `None`/falsy exactly
when the rule had no capture. -/
def analyze_enhanced_verdict (text : String) (category claim_type : String)
    (extracted_value : Option String) (confidence : String) : String :=
  let strong_verification :=
    ["verified", "audited", "certified", "validated", "confirmed", "documented", "third-party"]
  let uncertainty_indicators :=
    ["claims", "allegedly", "reportedly", "estimates", "approximately", "around", "target",
     "goal"]
  let contradiction_indicators := ["failed", "missed", "below", "under", "insufficient"]
  if strong_verification.any (fun ind => pyContains text ind) then "Confirmed"
  else if contradiction_indicators.any (fun ind => pyContains text ind) then "Contradicted"
  else if uncertainty_indicators.any (fun ind => pyContains text ind) then "Unverifiable"
  else
    let byValue : Option String :=
      match extracted_value with
      | none => none
      | some ev =>
        if ev = "" then none  -- `if extracted_value:` is false on an empty string
        else
          match parseDecimalQ (pyEraseChar ',' (pyEraseChar '%' ev)) with
          | none => none      -- float() raised ValueError: fall through
          | some value =>
            if category = "Financial" then
              if claim_type = "revenue_growth" && value > 60 then some "Contradicted"
              else if claim_type = "profit_growth" && value > 150 then some "Contradicted"
              else if value > 0 then some "Supported"
              else none
            else if category = "Operational" then
              if claim_type = "efficiency_improvement" && value > 50 then some "Contradicted"
              else if claim_type = "customer_satisfaction" && value > 99 then some "Contradicted"
              else if claim_type = "productivity" && value > 80 then some "Contradicted"
              else some "Supported"
            else if category = "ESG" then
              if claim_type = "carbon_reduction" && value > 90 then some "Contradicted"
              else if claim_type = "renewable_energy" && value > 100 then some "Contradicted"
              else some "Supported"
            else none
    match byValue with
    | some v => v
    | none =>
      if category = "Legal & Compliance" then "Unverifiable"
      else if confidence = "high" then "Supported"
      else "Supported"

/-- Embedding of `generate_enhanced_evidence_summary`
(robust_professional_main.py:363). -/
def generate_enhanced_evidence_summary (_claim_text : String) (category claim_type verdict
    confidence : String) : String :=
  let catL := pyLower category
  let base :=
    if verdict = "Confirmed" then
      "Strong verification indicators identified in " ++ catL ++
      " claim with documented evidence and third-party validation markers"
    else if verdict = "Supported" then
      "Claim demonstrates credibility based on " ++ catL ++
      " industry standards, typical performance metrics, and realistic value ranges"
    else if verdict = "Contradicted" then
      "Claim contradicts established " ++ catL ++
      " benchmarks, industry norms, and realistic performance expectations"
    else if verdict = "Unverifiable" then
      "Insufficient publicly available information to independently verify this " ++ catL ++
      " claim through standard verification channels"
    else if verdict = "Unsupported" then
      "Additional supporting evidence, documentation, and independent validation required to substantiate this " ++
      catL ++ " claim"
    else "Professional analysis completed"
  let withType :=
    if claim_type = "revenue_growth" then
      base ++ ". Revenue growth claims require verification against audited financial statements and SEC filings"
    else if claim_type = "carbon_reduction" then
      base ++ ". Environmental claims need validation through sustainability reports, third-party audits, and carbon accounting standards"
    else if claim_type = "efficiency_improvement" then
      base ++ ". Operational efficiency claims should be benchmarked against industry standards and verified through performance metrics"
    else if claim_type = "compliance_status" then
      base ++ ". Compliance claims require verification through regulatory filings, audit reports, and certification documentation"
    else base
  if confidence = "high" then
    withType ++ ". High confidence analysis based on specific quantitative indicators"
  else if confidence = "medium" then
    withType ++ ". Medium confidence analysis based on qualitative institutional statements"
  else withType

/-- Embedding of `generate_enhanced_reasoning`
(robust_professional_main.py:394). -/
def generate_enhanced_reasoning (_claim_text : String) (category claim_type verdict : String)
    (extracted_value : Option String) (_confidence : String) : String :=
  let catL := pyLower category
  let base :=
    if verdict = "Confirmed" then
      "The " ++ catL ++
      " claim contains strong verification indicators and aligns with documented evidence standards and industry best practices"
    else if verdict = "Supported" then
      "The " ++ catL ++
      " claim appears credible and falls within realistic industry performance ranges based on comparative analysis"
    else if verdict = "Contradicted" then
      "The " ++ catL ++
      " claim contradicts established industry benchmarks, realistic performance expectations, and typical organizational capabilities"
    else if verdict = "Unverifiable" then
      "The " ++ catL ++
      " claim lacks sufficient detail, independent verification sources, or publicly available supporting documentation"
    else if verdict = "Unsupported" then
      "The " ++ catL ++
      " claim requires additional supporting evidence, independent validation, and comprehensive documentation"
    else "Professional analysis completed"
  let withValue :=
    match extracted_value with
    | none => base
    | some ev =>
      if ev = "" then base
      else if verdict = "Contradicted" then
        base ++ ". The claimed value of " ++ ev ++
        " significantly exceeds typical industry performance standards and realistic organizational capabilities"
      else if verdict = "Supported" then
        base ++ ". The reported value of " ++ ev ++
        " falls within expected industry performance ranges and demonstrates realistic achievement levels"
      else if verdict = "Confirmed" then
        base ++ ". The documented value of " ++ ev ++
        " is supported by verification indicators and aligns with auditable performance metrics"
      else base
  if claim_type = "revenue_growth" then
    withValue ++ ". Revenue growth claims require cross-referencing with official financial reports, market conditions, and industry growth rates"
  else if claim_type = "carbon_reduction" then
    withValue ++ ". Environmental impact claims need validation through recognized carbon accounting methodologies and third-party verification"
  else if claim_type = "efficiency_improvement" then
    withValue ++ ". Operational efficiency claims should be benchmarked against industry standards and validated through measurable performance indicators"
  else if claim_type = "compliance_status" then
    withValue ++ ". Compliance claims require verification through regulatory documentation, audit trails, and certification records"
  else if claim_type = "automation" then
    withValue ++ ". Technology implementation claims should be supported by deployment metrics, performance data, and operational impact measurements"
  else withValue

/-- Sentence-terminal punctuation, the class `[.!?]`. -/
def isSentencePunct (c : Char) : Bool := c == '.' || c == '!' || c == '?'

/-- Python `re.split(r'[.!?]+', content)`: split at every maximal run of
sentence-terminal punctuation. -/
def splitPunctRuns : Nat → List Char → List (List Char)
  | 0, _ => [[]]
  | f + 1, l =>
    match l with
    | [] => [[]]
    | c :: rest =>
      if isSentencePunct c then [] :: splitPunctRuns f (rest.dropWhile isSentencePunct)
      else
        match splitPunctRuns f rest with
        | [] => [[c]]
        | p :: ps => (c :: p) :: ps

/-- First matching rule for a lowercased sentence (the inner `for pattern …:
if match: …; break` loop): the winning rule's category, claim type,
confidence, and `match.group(1) if match.groups() else None`. -/
def firstPatternMatch (sentence_lower : List Char) :
    Option (String × String × String × Option String) :=
  claim_patterns.findSome? (fun pat =>
    (Re.searchCap pat.1 sentence_lower).map (fun g =>
      (pat.2.1, pat.2.2.1, pat.2.2.2, g.map (fun l => (⟨l⟩ : String)))))

/-- The percentage findall `(\d+(?:\.\d+)?%)` of
`analyze_general_institutional_content`. -/
def findPercentages (content : String) : List String :=
  ((Re.findAllCap (.group rePctNum) (content.length + 1) content.data).map
    (fun g => (g.getD []))).map (fun l => (⟨l⟩ : String))

/-- The money findall `\$?([\d,]+(?:\.\d+)?)\s*(?:million|billion|thousand)`
with `re.IGNORECASE`. -/
def findMoney (content : String) : List String :=
  ((Re.findAllCap
      (rseq [.opt (rchar '$'), .group reMoneyNum, .starG rspace,
             raltStrI ["million", "billion", "thousand"]])
      (content.length + 1) content.data).map (fun g => (g.getD []))).map
    (fun l => (⟨l⟩ : String))

/-- Embedding of `analyze_general_institutional_content`
(robust_professional_main.py:430). -/
def analyze_general_institutional_content (content filename : String) : List PatternClaim :=
  let content_lower := pyLower content
  let institutional_keywords :=
    ["company", "corporation", "organization", "firm", "business", "enterprise",
     "annual report", "sustainability report", "performance", "results", "metrics"]
  let has_institutional_content :=
    institutional_keywords.any (fun kw => pyContains content_lower kw)
  if has_institutional_content then
    let percentage_matches := findPercentages content
    let money_matches := findMoney content
    if !percentage_matches.isEmpty || !money_matches.isEmpty then
      let quantitative_text :=
        "Document contains institutional performance data and metrics: " ++
        String.intercalate ", " (percentage_matches.take 5 ++ money_matches.take 5)
      [{ claim_text := quantitative_text
         category := if !money_matches.isEmpty then "Financial" else "Operational"
         verdict := "Unverifiable"
         evidence_summary :=
           "Quantitative institutional data identified requiring external verification against official sources and independent validation"
         verdict_reasoning :=
           "Numerical performance data in institutional documents needs comprehensive cross-referencing with audited reports, regulatory filings, and independent verification sources"
         source_context :=
           if content.length > 600 then content.take 600 ++ "..." else content
         metadata :=
           { source := filename
             source_chunk_id := 0
             claim_type := "quantitative_general"
             extracted_value := none
             confidence := none
             analysis_method := "general_content_analysis" } }]
    else []
  else []

/-- Embedding of `use_enhanced_pattern_analysis`
(robust_professional_main.py:199): split the document into sentences, keep
those longer than 30 characters once stripped, skip those shorter than 40,
let the first matching rule of `claim_patterns` produce a claim, and fall
back to the general-content analysis when no rule fired on a document longer
than 200 characters. -/
def use_enhanced_pattern_analysis (content filename : String) : List PatternClaim :=
  let sentences : List String :=
    ((splitPunctRuns (content.length + 1) content.data).map
      (fun l => (⟨trimL l⟩ : String))).filter (fun s => s.length > 30)
  let claims : List PatternClaim :=
    sentences.enum.filterMap (fun p =>
      let i := p.1
      let sentence_clean := pyStrip p.2
      if sentence_clean.length < 40 then none
      else
        let sentence_lower := pyLower sentence_clean
        match firstPatternMatch sentence_lower.data with
        | none => none
        | some (category, claim_type, confidence, extracted_value) =>
          let verdict :=
            analyze_enhanced_verdict sentence_lower category claim_type extracted_value
              confidence
          some
            { claim_text := sentence_clean
              category := category
              verdict := verdict
              evidence_summary :=
                generate_enhanced_evidence_summary sentence_clean category claim_type verdict
                  confidence
              verdict_reasoning :=
                generate_enhanced_reasoning sentence_clean category claim_type verdict
                  extracted_value confidence
              source_context := sentence_clean
              metadata :=
                { source := filename
                  source_chunk_id := i
                  claim_type := claim_type
                  extracted_value := extracted_value
                  confidence := some confidence
                  analysis_method := "enhanced_pattern_matching" } })
  if claims.isEmpty && content.length > 200 then
    claims ++ analyze_general_institutional_content content filename
  else claims

/-! ## Embedding of `robust_professional_main.py`: the trust scorers -/

/-- The claim shape handed to `calculate_sophisticated_trust_score` as its
first argument (the enhanced claim built at
robust_professional_main.py:795-805, whose `claim_text`, `category` and
`verdict` keys are always present). -/
structure EnhancedClaim where
  claim_text : String
  category : String
  verdict : String
deriving DecidableEq

/-- Embedding of `assess_claim_specificity`
(robust_professional_main.py:905): regex and keyword hits against the claim
text, capped at 25. -/
def assess_claim_specificity (claim_text : String) : Nat :=
  let s0 := 0
  let s1 := if Re.test rePctNum claim_text.data then s0 + 8 else s0
  let s2 :=
    if Re.test
        (rseq [.opt (rchar '$'), reMoneyNum, .starG rspace,
               raltStrI ["million", "billion", "thousand"]]) claim_text.data
    then s1 + 8 else s1
  let s3 :=
    if Re.test
        (rseq [rdigits1, .opt (rseq [rchar '.', rdigits1]), .starG rspace,
               raltStrI ["times", "fold", "x"]]) claim_text.data
    then s2 + 6 else s2
  let s4 := if Re.test (rseq [rdigit, rdigit, rdigit, rdigit]) claim_text.data then s3 + 3
            else s3
  let specific_terms :=
    ["increased", "decreased", "improved", "reduced", "achieved", "exceeded", "reached"]
  let s5 := s4 + min 5 ((specific_terms.filter
    (fun term => pyContains (pyLower claim_text) term)).length)
  let s6 := if claim_text.length > 100 then s5 + 3 else s5
  min 25 s6

/-- Embedding of `assess_evidence_quality` (robust_professional_main.py:874):
quality points for the evidence of the original pipeline claim, capped
at 30. -/
def assess_evidence_quality (claim_data : PipeClaim) : Nat :=
  let evidence := claim_data.evidence.getD (Evid.items [])
  let s1 :=
    match evidence with
    | Evid.str e =>
      let a := if e.length > 100 then 10 else 0
      let kws := ["verified", "confirmed", "documented", "official"]
      if kws.any (fun kw => pyContains (pyLower e) kw) then a + 5 else a
    | Evid.items l =>
      if l.length > 0 then
        let base := min 15 (l.length * 3)
        l.foldl (fun acc ev =>
          let source := pyLower ev.source
          let quals := ["government", "academic", "official", "sec", "epa"]
          let acc1 := if quals.any (fun q => pyContains source q) then acc + 3 else acc
          if ev.relevance_score > 70 then acc1 + 2 else acc1) base
      else 0
  let evidence_summary := claim_data.evidence_summary.getD ""
  let s2 := if evidence_summary.length > 150 then s1 + 5 else s1
  min 30 s2

/-- Embedding of `assess_verdict_confidence`
(robust_professional_main.py:929): a verdict lookup table plus reasoning
bonuses, capped at 20. -/
def assess_verdict_confidence (verdict : String) (claim_data : PipeClaim) : Nat :=
  let base_score :=
    if verdict = "Confirmed" then 20
    else if verdict = "Supported" then 15
    else if verdict = "Unverifiable" then 8
    else if verdict = "Contradicted" then 5
    else if verdict = "Unsupported" then 3
    else 10
  let reasoning := claim_data.verdict_reasoning.getD ""
  let b1 := if reasoning.length > 200 then base_score + 2 else base_score
  let kws := ["analysis", "verification", "cross-reference", "validation"]
  let b2 := if kws.any (fun kw => pyContains (pyLower reasoning) kw) then b1 + 1 else b1
  min 20 b2

/-- Embedding of `assess_source_credibility`
(robust_professional_main.py:950): credibility of the metadata source plus
evidence-source diversity, capped at 15. -/
def assess_source_credibility (claim_data : PipeClaim) : Nat :=
  let source := pyLower (claim_data.metadata_source.getD "")
  let s1 :=
    if ["gov", "edu", "official", "sec", "epa", "academic"].any
        (fun c => pyContains source c) then 8
    else if ["report", "filing", "audit", "statement"].any
        (fun m => pyContains source m) then 5
    else 2
  let s2 :=
    match claim_data.evidence.getD (Evid.items []) with
    | Evid.items l => s1 + min 7 ((l.map (fun ev => ev.source)).eraseDups).length
    | Evid.str _ => s1
  min 15 s2

/-- Embedding of `assess_category_specific_factors`
(robust_professional_main.py:977): per-category keyword bonuses, capped
at 10. -/
def assess_category_specific_factors (category claim_text : String) : Nat :=
  let claim_lower := pyLower claim_text
  let hit (l : List String) : Bool := l.any (fun t => pyContains claim_lower t)
  let score :=
    if category = "Financial" then
      (if hit ["revenue", "profit", "earnings", "financial"] then 5 else 0) +
      (if hit ["sec", "gaap", "audited", "quarterly"] then 3 else 0)
    else if category = "ESG" then
      (if hit ["carbon", "emissions", "sustainability", "environmental"] then 5 else 0) +
      (if hit ["epa", "iso", "certified", "verified"] then 3 else 0)
    else if category = "Operational" then
      (if hit ["efficiency", "productivity", "performance", "operational"] then 5 else 0) +
      (if hit ["measured", "tracked", "monitored", "kpi"] then 3 else 0)
    else if category = "Legal & Compliance" then
      (if hit ["compliance", "regulatory", "legal", "audit"] then 5 else 0) +
      (if hit ["certified", "approved", "compliant", "regulation"] then 3 else 0)
    else 0
  min 10 score

/-- Embedding of `calculate_sophisticated_trust_score`
(robust_professional_main.py:838): the sum of the five sub-scores clamped by
`max(15, min(95, score))`. -/
def calculate_sophisticated_trust_score (claim : EnhancedClaim)
    (original_claim_data : PipeClaim) : Nat :=
  let evidence_quality := assess_evidence_quality original_claim_data
  let specificity := assess_claim_specificity claim.claim_text
  let verdict_confidence := assess_verdict_confidence claim.verdict original_claim_data
  let source_credibility := assess_source_credibility original_claim_data
  let category_bonus := assess_category_specific_factors claim.category claim.claim_text
  let score :=
    evidence_quality + specificity + verdict_confidence + source_credibility + category_bonus
  max 15 (min 95 score)

/-- A web evidence source as consumed by
`calculate_pattern_based_trust_score`; only its optional `source_type` key is
read there. -/
structure WebSource where
  source_type : Option String
deriving DecidableEq

/-- Factor 1 of `calculate_pattern_based_trust_score`
(robust_professional_main.py:1048-1056): web evidence quality, 0-30. -/
def patternFactorEvidence (evidence_sources : List WebSource) : Nat :=
  if !evidence_sources.isEmpty then
    let count_points := min 20 (evidence_sources.length * 4)
    let credible_count :=
      (evidence_sources.filter (fun src =>
        match src.source_type with
        | some t => t = "Government" || t = "Academic" || t = "Financial"
        | none => false)).length
    count_points + min 10 (credible_count * 2)
  else 5

/-- Factor 3 of `calculate_pattern_based_trust_score`: the verdict lookup
table, 0-20. -/
def patternFactorVerdict (verdict : String) : Nat :=
  if verdict = "Confirmed" then 20
  else if verdict = "Supported" then 15
  else if verdict = "Unverifiable" then 8
  else if verdict = "Contradicted" then 5
  else if verdict = "Unsupported" then 3
  else 10

/-- Factor 4 of `calculate_pattern_based_trust_score`: pattern confidence
from the metadata (`metadata.get('confidence', 'medium')`), 0-15. -/
def patternFactorConfidence (claim : PatternClaim) : Nat :=
  let confidence := claim.metadata.confidence.getD "medium"
  if confidence = "high" then 15
  else if confidence = "medium" then 10
  else if confidence = "low" then 5
  else 10

/-- Factor 5 of `calculate_pattern_based_trust_score`: content quality
bonuses, 0-10. -/
def patternFactorContent (claim : PatternClaim) : Nat :=
  (if claim.claim_text.length > 100 then 5 else 0) +
  (if claim.evidence_summary.length > 100 then 3 else 0) +
  (if claim.verdict_reasoning.length > 150 then 2 else 0)

/-- Embedding of `calculate_pattern_based_trust_score`
(robust_professional_main.py:1043): five factors summed and clamped by
`max(15, min(95, score))`. -/
def calculate_pattern_based_trust_score (claim : PatternClaim)
    (evidence_sources : List WebSource) : Nat :=
  let score :=
    patternFactorEvidence evidence_sources +
    assess_claim_specificity claim.claim_text +
    patternFactorVerdict claim.verdict +
    patternFactorConfidence claim +
    patternFactorContent claim
  max 15 (min 95 score)

/-! ## Embedding of `university_reviews.py` -/

/-- Python `str.replace(old, new)` for a non-empty `old`, replacing every
non-overlapping occurrence left to right. -/
def replaceSubL (needle repl : List Char) : Nat → List Char → List Char
  | 0, s => s
  | _ + 1, [] => []
  | f + 1, s@(c :: rest) =>
    if needle ≠ [] && needle.isPrefixOf s then
      repl ++ replaceSubL needle repl f (s.drop needle.length)
    else c :: replaceSubL needle repl f rest

/-- Python `s.replace(old, new)` on strings. -/
def pyReplace (s old new : String) : String :=
  ⟨replaceSubL old.data new.data (s.data.length + 1) s.data⟩

/-- Python `str.split()` with no arguments: maximal runs of non-whitespace
characters. -/
def pySplitWs (s : String) : List String :=
  ((s.data.splitOnP Char.isWhitespace).filter (fun l => l ≠ [])).map (fun l => ⟨l⟩)

/-- Embedding of `analyze_review_sentiment` (university_reviews.py:782):
count fixed negative and positive keyword hits in the lowercased text and
compare. -/
def analyze_review_sentiment (text : String) : String :=
  let text_lower := pyLower text
  let negative_words :=
    ["bad", "poor", "terrible", "awful", "horrible", "worst", "disappointing",
     "useless", "waste", "pathetic", "regret", "avoid", "not recommended",
     "problems", "issues", "complaints", "concerns", "difficulties",
     "outdated", "insufficient", "inadequate", "limited", "lack of",
     "unsatisfied", "disappointed", "frustrated", "angry"]
  let positive_words :=
    ["good", "great", "excellent", "amazing", "wonderful", "best",
     "recommended", "satisfied", "happy", "pleased", "impressed",
     "quality", "outstanding", "fantastic", "superb", "brilliant"]
  let negative_count := (negative_words.filter (fun w => pyContains text_lower w)).length
  let positive_count := (positive_words.filter (fun w => pyContains text_lower w)).length
  if negative_count > positive_count && negative_count ≥ 1 then "negative"
  else if positive_count > negative_count && positive_count ≥ 1 then "positive"
  else "neutral"

/-- Embedding of `is_relevant_to_university` (university_reviews.py:836). -/
def is_relevant_to_university (text university_name : String) : Bool :=
  let text_lower := pyLower text
  let uni_lower := pyLower university_name
  let uni_variations :=
    [uni_lower,
     pyStrip (pyReplace uni_lower "university" ""),
     pyStrip (pyReplace uni_lower "college" ""),
     pyStrip (pyReplace uni_lower "institute" ""),
     pyStrip (pyReplace uni_lower "of" "")]
  let uni_variations := uni_variations.filter (fun v => v.length > 3)
  if uni_variations.any (fun v => pyContains text_lower v) then true
  else
    let uni_keywords :=
      ((pySplitWs university_name).filter (fun w => w.length > 3)).map pyLower
    if uni_keywords.length ≥ 2 then
      ((uni_keywords.filter (fun kw => pyContains text_lower kw)).length) ≥ 2
    else false

/-- Embedding of `looks_like_review` (university_reviews.py:868). -/
def looks_like_review (text : String) : Bool :=
  let review_indicators :=
    ["student", "study", "college", "university", "experience",
     "faculty", "placement", "infrastructure", "campus",
     "course", "degree", "professor", "teacher", "education"]
  let text_lower := pyLower text
  ((review_indicators.filter (fun ind => pyContains text_lower ind)).length) ≥ 2

/-- Embedding of `extract_real_complaints` (university_reviews.py:881): the
complaint categories whose keyword list has at least one hit, in the fixed
dict insertion order, defaulting to `['general']`. -/
def extract_real_complaints (text : String) : List String :=
  let complaint_keywords : List (String × List String) :=
    [("academics",
      ["faculty", "teaching", "professor", "teacher", "curriculum",
       "syllabus", "education", "academic", "course", "study",
       "outdated course", "poor teaching", "bad faculty"]),
     ("infrastructure",
      ["infrastructure", "building", "classroom", "lab", "library",
       "facility", "equipment", "maintenance", "wifi", "internet",
       "old building", "poor infrastructure"]),
     ("placements",
      ["placement", "job", "career", "company", "package", "salary",
       "employment", "recruiting", "internship", "opportunity",
       "poor placement", "no jobs"]),
     ("administration",
      ["administration", "management", "staff", "office", "service",
       "support", "response", "bureaucracy", "process",
       "poor service", "bad administration"]),
     ("fees",
      ["fees", "fee", "cost", "expensive", "money", "financial",
       "tuition", "charge", "payment", "high fees"]),
     ("hostel",
      ["hostel", "accommodation", "room", "mess", "food",
       "residence", "living", "staying", "boarding",
       "poor food", "bad hostel"])]
  let text_lower := pyLower text
  let found_categories :=
    (complaint_keywords.filter (fun ck =>
      ((ck.2.filter (fun kw => pyContains text_lower kw)).length) ≥ 1)).map (fun ck => ck.1)
  if found_categories.isEmpty then ["general"] else found_categories

/-- Embedding of `calculate_text_relevance` (university_reviews.py:945). -/
def calculate_text_relevance (text university_name : String) : Nat :=
  let text_lower := pyLower text
  let uni_words := ((pySplitWs university_name).filter (fun w => w.length > 3)).map pyLower
  let relevance := 2 * (uni_words.filter (fun w => pyContains text_lower w)).length
  let edu_context := ["student", "college", "university", "course", "degree"]
  let context_score := (edu_context.filter (fun c => pyContains text_lower c)).length
  min 10 (relevance + min 3 context_score)

/-- A university review record.  `rating` is optional because only the
platform-specific scrapers attach one; the generic scraper and the raw-HTML
extractor never do. -/
structure Review where
  content : String
  source : String
  url : String
  sentiment : String
  review_type : String
  date_found : String
  complaints : List String
  relevance_score : Nat
  rating : Option String
deriving DecidableEq

/-- The element filter of `scrape_generic_reviews`
(university_reviews.py:582-584). -/
def genericQualifies (university_name text : String) : Bool :=
  text.length > 50 && text.length < 500 &&
  is_relevant_to_university text university_name && looks_like_review text

/-- The `review_data` dict built in `scrape_generic_reviews`
(university_reviews.py:588-597).  `sourceName` stands for
`self.extract_domain_name(url)` (which goes through the external `urlparse`)
and `today` for `time.strftime("%Y-%m-%d")`. -/
def mkGenericReview (sourceName url university_name today text : String) : Review :=
  { content := text.take 300
    source := sourceName
    url := url
    sentiment := analyze_review_sentiment text
    review_type := "scraped_content"
    date_found := today
    complaints := extract_real_complaints text
    relevance_score := calculate_text_relevance text university_name
    rating := none }

/-- The accumulation loop of `scrape_generic_reviews`: qualifying elements
are appended to the negative list exactly when their sentiment is
`'negative'`, and to the positive list otherwise. -/
def scrapeGenericLoop (sourceName url university_name today : String) :
    List String → List Review × List Review
  | [] => ([], [])
  | text :: rest =>
    let acc := scrapeGenericLoop sourceName url university_name today rest
    if genericQualifies university_name text then
      let review_data := mkGenericReview sourceName url university_name today text
      if review_data.sentiment = "negative" then (review_data :: acc.1, acc.2)
      else (acc.1, review_data :: acc.2)
    else acc

/-- Embedding of `scrape_generic_reviews` (university_reviews.py:572).  The
HTML parser is external, so the stripped texts of the up-to-50 elements
returned by `soup.find_all(['p','div','span'], limit=50)` are the oracle
parameter `text_elements`. -/
def scrape_generic_reviews (text_elements : List String)
    (sourceName url university_name today : String) : List Review × List Review :=
  scrapeGenericLoop sourceName url university_name today text_elements

/-- Character class `[^>]`. -/
def rNonGt : Re := .cls (fun c => !(c == '>'))

/-- The four raw-HTML review patterns of `extract_reviews_from_html`
(university_reviews.py:360-365), compiled with `re.DOTALL | re.IGNORECASE`. -/
def review_patterns : List Re :=
  [rseq [rstrI "<div", .starG rNonGt, rstrI "review", .starG rNonGt, rchar '>',
         .group rlazyAll, rstrI "</div>"],
   rseq [rstrI "<p", .starG rNonGt, rstrI "review", .starG rNonGt, rchar '>',
         .group rlazyAll, rstrI "</p>"],
   rseq [rstrI "class=", rchar '"', rstrI "review", .starG (.cls (fun c => !(c == '"'))),
         rchar '"', .starG rNonGt, rchar '>', .group rlazyAll, rstrI "</"],
   rseq [rstrI "data-review", .starG rNonGt, rchar '>', .group rlazyAll, rstrI "</"]]

/-- The `found_reviews` list (university_reviews.py:367-370): captures of all
four patterns, concatenated in pattern order. -/
def foundReviews (html_content : String) : List (List Char) :=
  review_patterns.flatMap (fun pat =>
    (Re.findAllCap pat (html_content.length + 1) html_content.data).map (fun g => g.getD []))

/-- Tag stripping and whitespace collapsing
(university_reviews.py:375-376): `re.sub(r'<[^>]+>', ' ', ·)` then
`re.sub(r'\s+', ' ', ·).strip()`. -/
def cleanReviewHtml (review_html : List Char) : String :=
  let noTags := Re.gsub (rseq [rchar '<', .plusG rNonGt, rchar '>']) [' ']
    (review_html.length + 1) review_html
  pyStrip ⟨Re.gsub (.plusG rspace) [' '] (noTags.length + 1) noTags⟩

/-- The `review_data` dict built in `extract_reviews_from_html`
(university_reviews.py:381-390). -/
def mkHtmlReview (sourceName url university_name today : String) (clean_text : String) :
    Review :=
  { content := clean_text.take 300
    source := sourceName
    url := url
    sentiment := analyze_review_sentiment clean_text
    review_type := "scraped_review"
    date_found := today
    complaints := extract_real_complaints clean_text
    relevance_score := calculate_text_relevance clean_text university_name
    rating := none }

/-- The filter of `extract_reviews_from_html` on a cleaned review text
(university_reviews.py:378). -/
def htmlQualifies (university_name : String) (clean_text : String) : Bool :=
  clean_text.length > 50 && is_relevant_to_university clean_text university_name

/-- The accumulation loop of `extract_reviews_from_html` over the first ten
found raw reviews. -/
def extractHtmlLoop (sourceName url university_name today : String) :
    List (List Char) → List Review × List Review
  | [] => ([], [])
  | review_html :: rest =>
    let acc := extractHtmlLoop sourceName url university_name today rest
    let clean_text := cleanReviewHtml review_html
    if htmlQualifies university_name clean_text then
      let review_data := mkHtmlReview sourceName url university_name today clean_text
      if review_data.sentiment = "negative" then (review_data :: acc.1, acc.2)
      else (acc.1, review_data :: acc.2)
    else acc

/-- Embedding of `extract_reviews_from_html` (university_reviews.py:354). -/
def extract_reviews_from_html (html_content : String)
    (sourceName url university_name today : String) : List Review × List Review :=
  extractHtmlLoop sourceName url university_name today ((foundReviews html_content).take 10)

/-- Embedding of `extract_numeric_rating` (university_reviews.py:1127):
search `(\d+(?:\.\d+)?)` in the rating string and parse it; `None` and the
empty string are falsy. -/
def extract_numeric_rating (rating_str : Option String) : Option ℚ :=
  match rating_str with
  | none => none
  | some s =>
    if s = "" then none
    else
      match Re.searchCap (.group (rseq [rdigits1, .opt (rseq [rchar '.', rdigits1])])) s.data
      with
      | some (some cap) => parseDecimalQ ⟨cap⟩
      | _ => none

/-- Count of each string's occurrences in first-seen order (a Python dict
used as a counter). -/
def bumpCount : List (String × Nat) → String → List (String × Nat)
  | [], s => [(s, 1)]
  | (k, n) :: rest, s =>
    if k = s then (k, n + 1) :: rest else (k, n) :: bumpCount rest s

def countOcc (l : List String) : List (String × Nat) := l.foldl bumpCount []

/-- The `review_summary` keys that `analyze_real_review_patterns` writes. -/
structure ReviewSummary where
  total_negative_reviews : Nat
  total_positive_reviews : Nat
  common_complaints : List (String × Nat)
  common_praises : List (String × Nat)
  average_rating : Option ℚ
deriving DecidableEq

/-- The accumulated university result set, restricted to the keys
`analyze_real_review_patterns` reads or writes. -/
structure UniResults where
  negative_reviews : List Review
  positive_reviews : List Review
  review_summary : ReviewSummary
deriving DecidableEq

/-- Embedding of `analyze_real_review_patterns` (university_reviews.py:1070).
The totals are written first, then — only when some review exists —
complaint and praise frequencies (sorted descending, top five) and, when any
rating parsed, the average rating.  `round2` is the oracle for Python's
floating-point `round(·, 2)`. -/
def analyze_real_review_patterns (results : UniResults) (round2 : ℚ → ℚ) : UniResults :=
  let negative_reviews := results.negative_reviews
  let positive_reviews := results.positive_reviews
  let summary0 :=
    { results.review_summary with
      total_negative_reviews := negative_reviews.length
      total_positive_reviews := positive_reviews.length }
  if negative_reviews.isEmpty && positive_reviews.isEmpty then
    { results with review_summary := summary0 }
  else
    let all_complaints := negative_reviews.flatMap (fun r => r.complaints)
    let all_praises := positive_reviews.flatMap (fun r => r.complaints)
    let total_ratings :=
      (negative_reviews.filterMap (fun r => extract_numeric_rating r.rating)) ++
      (positive_reviews.filterMap (fun r => extract_numeric_rating r.rating))
    let complaint_counts := countOcc all_complaints
    let praise_counts := countOcc all_praises
    let summary1 :=
      { summary0 with
        common_complaints := (sortDescBy (fun p => p.2) complaint_counts).take 5
        common_praises := (sortDescBy (fun p => p.2) praise_counts).take 5
        average_rating :=
          if !total_ratings.isEmpty then
            some (round2 (total_ratings.sum / (total_ratings.length : ℚ)))
          else summary0.average_rating }
    { results with review_summary := summary1 }

/-! ## Concrete instances used by witnesses and counterexamples -/

/-- A plain claim as the extractor creates it, before any downstream stage. -/
def sampleClaim : PipeClaim :=
  { claim_text := "The company reduced operating costs by a wide margin."
    source_context := "Annual report text."
    metadata_source := some "report.txt"
    metadata_chunk_id := 0
    category := none
    evidence := none
    verdict := none
    evidence_summary := none
    verdict_reasoning := none }

/-- One concrete evidence item. -/
def sampleEvidence : EvidenceItem :=
  { source_query := "operating costs audit"
    retrieved_content := "Independent filings describe the cost programme."
    source := "Web"
    relevance_score := 0 }

/-- A claim that reached the evaluator with a non-empty evidence list. -/
def sampleEvaluatedClaim : PipeClaim :=
  { sampleClaim with evidence := some (Evid.items [sampleEvidence]) }

/-- A model reply that is valid JSON but carries a verdict outside the
four-label enumeration. -/
def bananaJson : String := "\x7b\"verdict\": \"Banana\"\x7d"

/-- A corpus chunk sharing no word with the witness queries below. -/
def sampleChunk : EviChunk :=
  { page_content := "Entirely unrelated reference material."
    source_paper := some "evidence_paper_1.pdf" }

/-- A search oracle that always answers with the no-result sentinel text. -/
def sentinelSearch : String → Option String :=
  fun _ => some "No good DuckDuckGo Search Result was found"

/-! ## Theorems -/

/-- C1: for every input to either trust scorer the returned score is a
natural number in [15, 95], and the five sub-scores are individually capped
at 30 (evidence quality), 25 (claim specificity), 20 (verdict confidence),
15 (source credibility / pattern confidence) and 10 (category bonus /
content quality); for the pattern-based scorer the five factors obey the
same 30/25/20/15/10 caps. -/
theorem trust_score_bounds :
    ∀ (claim : EnhancedClaim) (original_claim_data : PipeClaim) (pc : PatternClaim)
      (srcs : List WebSource),
      15 ≤ calculate_sophisticated_trust_score claim original_claim_data ∧
      calculate_sophisticated_trust_score claim original_claim_data ≤ 95 ∧
      15 ≤ calculate_pattern_based_trust_score pc srcs ∧
      calculate_pattern_based_trust_score pc srcs ≤ 95 ∧
      assess_evidence_quality original_claim_data ≤ 30 ∧
      assess_claim_specificity claim.claim_text ≤ 25 ∧
      assess_verdict_confidence claim.verdict original_claim_data ≤ 20 ∧
      assess_source_credibility original_claim_data ≤ 15 ∧
      assess_category_specific_factors claim.category claim.claim_text ≤ 10 ∧
      patternFactorEvidence srcs ≤ 30 ∧
      assess_claim_specificity pc.claim_text ≤ 25 ∧
      patternFactorVerdict pc.verdict ≤ 20 ∧
      patternFactorConfidence pc ≤ 15 ∧
      patternFactorContent pc ≤ 10 := by
  intro claim d pc srcs
  refine ⟨Nat.le_max_left _ _, Nat.max_le.mpr ⟨by norm_num, Nat.min_le_left _ _⟩,
    Nat.le_max_left _ _, Nat.max_le.mpr ⟨by norm_num, Nat.min_le_left _ _⟩,
    Nat.min_le_left _ _, Nat.min_le_left _ _, Nat.min_le_left _ _, Nat.min_le_left _ _,
    Nat.min_le_left _ _, ?_, Nat.min_le_left _ _, ?_, ?_, ?_⟩
  · unfold patternFactorEvidence
    dsimp only
    split_ifs <;> omega
  · unfold patternFactorVerdict
    split_ifs <;> norm_num
  · unfold patternFactorConfidence
    dsimp only
    split_ifs <;> norm_num
  · unfold patternFactorContent
    split_ifs <;> norm_num

/-- C2 (counterexample): the raw model reply " Financial" (leading space)
matches none of the four category strings exactly, yet the classifier does
not fall back to "Operational" — the code strips the reply before the exact
comparison, so the category becomes "Financial". -/
theorem classifier_strip_counterexample :
    " Financial" ∉ valid_categories ∧
    (classify_claim_type_openrouter sampleClaim " Financial").category ≠ some "Operational" ∧
    (classify_claim_type_openrouter sampleClaim " Financial").category = some "Financial" := by
  refine ⟨by decide, by decide, by decide⟩

/-- C2 (amended): the resulting category is always one of the four fixed
strings, and whenever the stripped model reply does not exactly match one of
them the category is the fixed default "Operational". -/
theorem classify_category_in_four :
    ∀ (claim_data : PipeClaim) (responseRaw : String),
      (classify_claim_type_openrouter claim_data responseRaw).category.getD "" ∈
        valid_categories ∧
      (pyStrip responseRaw ∉ valid_categories →
        (classify_claim_type_openrouter claim_data responseRaw).category =
          some "Operational") := by
  intro claim_data responseRaw
  unfold classify_claim_type_openrouter
  by_cases h : pyStrip responseRaw ∈ valid_categories
  · simp only [if_pos h, Option.getD_some]
    exact ⟨h, fun h' => absurd h h'⟩
  · simp only [if_neg h, Option.getD_some]
    exact ⟨by decide, fun _ => trivial⟩

/-- C2 (witness): on the reply "gibberish", which matches no category even
after stripping, the classifier yields a category in the four-string set,
namely "Operational". -/
theorem classify_category_in_four_witness :
    (classify_claim_type_openrouter sampleClaim "gibberish").category.getD "" ∈
      valid_categories ∧
    (classify_claim_type_openrouter sampleClaim "gibberish").category = some "Operational" :=
  ⟨(classify_category_in_four sampleClaim "gibberish").1,
   (classify_category_in_four sampleClaim "gibberish").2 (by decide)⟩

/-- C3 (counterexample): with a non-sentinel, non-empty evidence list and the
model reply being the valid JSON object with verdict "Banana", the evaluator
stores the verdict "Banana" verbatim — outside the four labels and the
degraded marker — because `claim_data.update(result_dict)` performs no
validation of the parsed verdict. -/
theorem evaluate_unvalidated_verdict_counterexample :
    evaluate_claim_openrouter sampleEvaluatedClaim bananaJson parseFlatJson =
      some { sampleEvaluatedClaim with verdict := some "Banana" } ∧
    "Banana" ∉
      ["Confirmed", "Plausible", "Contradicted", "Insufficient Evidence",
       "Evaluation Error"] := by
  refine ⟨by decide, by decide⟩

/-- C3 (amended): for a claim whose evidence is a non-empty evidence list,
the evaluator's verdict is "Evaluation Error" (with the raw reply as
reasoning) exactly when the JSON parse fails; on a successful parse the
parsed object is merged in unvalidated, so the verdict is whatever string
the object's "verdict" key holds (the field is only guaranteed to be one of
the four labels when the model's JSON says so). -/
theorem evaluate_parse_characterization :
    ∀ (claim_data : PipeClaim) (l : List EvidenceItem) (response : String)
      (jsonLoads : String → Option JsonObj),
      claim_data.evidence = some (Evid.items l) → l ≠ [] →
      (jsonLoads response = none →
        evaluate_claim_openrouter claim_data response jsonLoads =
          some { claim_data with
                 verdict := some "Evaluation Error"
                 evidence_summary := some "Failed to parse model JSON."
                 verdict_reasoning := some response }) ∧
      (∀ o, jsonLoads response = some o →
        evaluate_claim_openrouter claim_data response jsonLoads =
          some (pipeUpdate claim_data o)) := by
  intro claim_data l response jsonLoads hev hne
  have hemp : l.isEmpty = false := by
    cases l with
    | nil => exact absurd rfl hne
    | cons a t => rfl
  constructor
  · intro hparse
    unfold evaluate_claim_openrouter
    rw [hev]
    simp only [hemp, if_neg Bool.false_ne_true, hparse]
  · intro o hparse
    unfold evaluate_claim_openrouter
    rw [hev]
    simp only [hemp, if_neg Bool.false_ne_true, hparse]

/-- C3 (witness): applying the characterization at the concrete claim with
one evidence item and the unparsable reply "not json". -/
theorem evaluate_parse_characterization_witness :
    evaluate_claim_openrouter sampleEvaluatedClaim "not json" parseFlatJson =
      some { sampleEvaluatedClaim with
             verdict := some "Evaluation Error"
             evidence_summary := some "Failed to parse model JSON."
             verdict_reasoning := some "not json" } :=
  (evaluate_parse_characterization sampleEvaluatedClaim [sampleEvidence] "not json"
    parseFlatJson rfl (by decide)).1 (by decide)

/-- C4 (counterexample): the document consisting of the sentence "Revenue
increased by 75% this quarter." produces no claim at all.  The stripped
sentence is 37 characters long, passes the 30-character split filter but is
skipped by the `len(sentence_clean) < 40` minimum-length filter before any
pattern is tried, and the 38-character document is too short for the
general-content fallback. -/
theorem revenue_sentence_filtered_out :
    use_enhanced_pattern_analysis "Revenue increased by 75% this quarter." "report.txt" =
      [] := by decide

/-- C4 (amended): a sentence matching the revenue_growth rule yields a claim
only once it reaches the 40-character minimum length; for such a sentence —
"Revenue increased by 75% compared to the previous quarter." — the detector
produces exactly one claim matching revenue_growth with extracted value
"75%" and, because 75 exceeds the 60 threshold, verdict "Contradicted". -/
theorem revenue_growth_contradicted_scenario :
    (use_enhanced_pattern_analysis
      "Revenue increased by 75% compared to the previous quarter." "report.txt").map
        (fun c => (c.category, c.metadata.claim_type, c.metadata.extracted_value, c.verdict,
          c.claim_text)) =
      [("Financial", "revenue_growth", some "75%", "Contradicted",
        "Revenue increased by 75% compared to the previous quarter")] := by decide

/-- C9: the document consisting of the sentence "Carbon emissions were
reduced by 40% through new initiatives." produces exactly one claim matching
the carbon_reduction rule with extracted value "40%", and since 40 does not
exceed the 90 threshold its verdict is "Supported". -/
theorem carbon_reduction_supported_scenario :
    (use_enhanced_pattern_analysis
      "Carbon emissions were reduced by 40% through new initiatives." "report.txt").map
        (fun c => (c.category, c.metadata.claim_type, c.metadata.extracted_value, c.verdict,
          c.claim_text)) =
      [("ESG", "carbon_reduction", some "40%", "Supported",
        "Carbon emissions were reduced by 40% through new initiatives")] := by decide

/-- Auxiliary list fact: a flatMap over a list whose images are all empty is
empty. -/
theorem flatMapNilAux {α β : Type} (l : List α) (f : α → List β)
    (h : ∀ a ∈ l, f a = []) : l.flatMap f = [] := by
  induction l with
  | nil => rfl
  | cons a t ih =>
    simp only [List.flatMap_cons, h a (List.mem_cons_self a t),
      ih (fun x hx => h x (List.mem_cons_of_mem a hx)), List.nil_append]

/-- C5: when no query scores against any local-corpus chunk and every
web-search reply is empty or carries the "No good DuckDuckGo Search Result"
sentinel, the retriever sets the evidence field to the exact sentinel string
"No reliable evidence was found.", and the evaluator then short-circuits to
the fixed Insufficient Evidence verdict with its fixed summary and reasoning
strings — for every model reply and JSON oracle, i.e. without consulting the
model at all. -/
theorem no_evidence_short_circuit :
    ∀ (claim_data : PipeClaim) (queriesResponse : String) (evidence_chunks : List EviChunk)
      (webSearch : String → Option String),
      (∀ q ∈ parseQueries queriesResponse, ∀ chunk ∈ evidence_chunks,
        localChunkScore q chunk = 0) →
      (∀ q ∈ parseQueries queriesResponse, ∀ t, webSearch q = some t →
        t = "" ∨ pyContains t ddgSentinel = true) →
      (retrieve_evidence_openrouter claim_data queriesResponse evidence_chunks
          webSearch).evidence = some (Evid.str "No reliable evidence was found.") ∧
      (∀ (response : String) (jsonLoads : String → Option JsonObj),
        evaluate_claim_openrouter
            (retrieve_evidence_openrouter claim_data queriesResponse evidence_chunks webSearch)
            response jsonLoads =
          some { retrieve_evidence_openrouter claim_data queriesResponse evidence_chunks
                   webSearch with
                 verdict := some "Insufficient Evidence"
                 evidence_summary := some "No relevant evidence found."
                 verdict_reasoning := some "The search did not yield enough evidence." }) := by
  intro claim_data queriesResponse evidence_chunks webSearch hlocal hweb
  have hlocalNil : ∀ q ∈ parseQueries queriesResponse,
      localResultsFor evidence_chunks q = [] := by
    intro q hq
    apply List.filterMap_eq_nil_iff.mpr
    intro chunk hchunk
    have hz := hlocal q hq chunk hchunk
    simp only [localResultsFor] at *
    rw [hz]
    simp
  have hwebNil : webResultsFor webSearch (parseQueries queriesResponse) = [] := by
    apply List.filterMap_eq_nil_iff.mpr
    intro q hq
    cases hcall : webSearch q with
    | none => simp [hcall]
    | some t =>
      rcases hweb q hq t hcall with ht | ht
      · simp [hcall, ht]
      · simp [hcall, ht]
  have hflat : (parseQueries queriesResponse).flatMap (localResultsFor evidence_chunks)
      = [] := flatMapNilAux _ _ hlocalNil
  have hretr : retrieve_evidence_openrouter claim_data queriesResponse evidence_chunks
      webSearch =
      { claim_data with evidence := some (Evid.str "No reliable evidence was found.") } := by
    have hfound : (parseQueries queriesResponse).any
        (fun q => !(localResultsFor evidence_chunks q).isEmpty) = false := by
      apply List.any_eq_false.mpr
      intro q hq
      rw [hlocalNil q hq]
      simp
    unfold retrieve_evidence_openrouter
    dsimp only
    rw [hflat, hfound, hwebNil]
    simp
  refine ⟨by rw [hretr], ?_⟩
  intro response jsonLoads
  rw [hretr]
  rfl

/-- C5 (witness): a concrete run where the single query shares no word with
the single corpus chunk and the search oracle always answers with the
sentinel text: the evidence is the sentinel string and the evaluator's answer
is the fixed Insufficient Evidence record. -/
theorem no_evidence_short_circuit_witness :
    (retrieve_evidence_openrouter sampleClaim "1. quantum flux capacitor" [sampleChunk]
        sentinelSearch).evidence = some (Evid.str "No reliable evidence was found.") ∧
    evaluate_claim_openrouter
        (retrieve_evidence_openrouter sampleClaim "1. quantum flux capacitor" [sampleChunk]
          sentinelSearch) "any reply" (fun _ => none) =
      some { retrieve_evidence_openrouter sampleClaim "1. quantum flux capacitor" [sampleChunk]
               sentinelSearch with
             verdict := some "Insufficient Evidence"
             evidence_summary := some "No relevant evidence found."
             verdict_reasoning := some "The search did not yield enough evidence." } :=
  ⟨(no_evidence_short_circuit sampleClaim "1. quantum flux capacitor" [sampleChunk]
      sentinelSearch (by decide) (by decide)).1,
   (no_evidence_short_circuit sampleClaim "1. quantum flux capacitor" [sampleChunk]
      sentinelSearch (by decide) (by decide)).2 "any reply" (fun _ => none)⟩

/-- C6: for a claim with a non-empty evidence list, when the model reply
fails to parse as JSON the evaluator returns a claim (no exception, nothing
dropped) whose verdict is "Evaluation Error" and whose verdict_reasoning is
the raw unparsed reply verbatim, with the claim text preserved. -/
theorem parse_failure_degrades_gracefully :
    ∀ (claim_data : PipeClaim) (l : List EvidenceItem) (response : String)
      (jsonLoads : String → Option JsonObj),
      claim_data.evidence = some (Evid.items l) → l ≠ [] → jsonLoads response = none →
      ∃ c', evaluate_claim_openrouter claim_data response jsonLoads = some c' ∧
        c'.verdict = some "Evaluation Error" ∧
        c'.evidence_summary = some "Failed to parse model JSON." ∧
        c'.verdict_reasoning = some response ∧
        c'.claim_text = claim_data.claim_text := by
  intro claim_data l response jsonLoads hev hne hparse
  have hemp : l.isEmpty = false := by
    cases l with
    | nil => exact absurd rfl hne
    | cons a t => rfl
  refine ⟨{ claim_data with
            verdict := some "Evaluation Error"
            evidence_summary := some "Failed to parse model JSON."
            verdict_reasoning := some response }, ?_, rfl, rfl, rfl, rfl⟩
  unfold evaluate_claim_openrouter
  rw [hev]
  simp only [hemp, if_neg Bool.false_ne_true, hparse]

/-- C6 (witness): applied to the concrete claim with one evidence item and
the unparsable model reply "totally malformed output". -/
theorem parse_failure_degrades_gracefully_witness :
    ∃ c', evaluate_claim_openrouter sampleEvaluatedClaim "totally malformed output"
        parseFlatJson = some c' ∧
      c'.verdict = some "Evaluation Error" ∧
      c'.evidence_summary = some "Failed to parse model JSON." ∧
      c'.verdict_reasoning = some "totally malformed output" ∧
      c'.claim_text = sampleEvaluatedClaim.claim_text :=
  parse_failure_degrades_gracefully sampleEvaluatedClaim [sampleEvidence]
    "totally malformed output" parseFlatJson rfl (by decide) (by decide)

/-- C7: after `analyze_real_review_patterns` runs on any accumulated result
set, the summary totals equal the lengths of the corresponding review
lists. -/
theorem review_totals_match_lengths :
    ∀ (results : UniResults) (round2 : ℚ → ℚ),
      (analyze_real_review_patterns results round2).review_summary.total_negative_reviews =
        (analyze_real_review_patterns results round2).negative_reviews.length ∧
      (analyze_real_review_patterns results round2).review_summary.total_positive_reviews =
        (analyze_real_review_patterns results round2).positive_reviews.length := by
  intro results round2
  unfold analyze_real_review_patterns
  dsimp only
  split <;> simp

/-- C8: the pattern-based detector is deterministic — two runs on the same
document and filename produce the same claim list.  In this embedding
`use_enhanced_pattern_analysis` is a pure function of its two inputs and the
fixed rule table; it takes no oracle for a model call, a clock, or a random
source. -/
theorem pattern_detector_deterministic :
    ∀ (content filename : String) (run1 run2 : List PatternClaim),
      run1 = use_enhanced_pattern_analysis content filename →
      run2 = use_enhanced_pattern_analysis content filename →
      run1 = run2 := by
  intro content filename run1 run2 h1 h2
  rw [h1, h2]

/-- C8 (witness): two concrete runs on the carbon-reduction document agree. -/
theorem pattern_detector_deterministic_witness :
    use_enhanced_pattern_analysis
        "Carbon emissions were reduced by 40% through new initiatives." "report.txt" =
      use_enhanced_pattern_analysis
        "Carbon emissions were reduced by 40% through new initiatives." "report.txt" :=
  pattern_detector_deterministic
    "Carbon emissions were reduced by 40% through new initiatives." "report.txt" _ _ rfl rfl

/-- Auxiliary: the accumulation loop of `scrape_generic_reviews` partitions
the qualifying reviews by sentiment. -/
theorem scrapeGenericLoop_partition (sn url uni today : String) (ts : List String) :
    scrapeGenericLoop sn url uni today ts =
      (((ts.filter (fun t => genericQualifies uni t)).map
          (fun t => mkGenericReview sn url uni today t)).filter
            (fun r => r.sentiment == "negative"),
       ((ts.filter (fun t => genericQualifies uni t)).map
          (fun t => mkGenericReview sn url uni today t)).filter
            (fun r => !(r.sentiment == "negative"))) := by
  induction ts with
  | nil => rfl
  | cons t rest ih =>
    simp only [scrapeGenericLoop, ih, List.filter_cons]
    by_cases hq : genericQualifies uni t
    · simp only [hq, if_pos, List.map_cons, List.filter_cons]
      by_cases hs : (mkGenericReview sn url uni today t).sentiment = "negative"
      · simp [hs]
      · simp [hs]
    · simp [hq]

/-- Auxiliary: the accumulation loop of `extract_reviews_from_html`
partitions the qualifying cleaned reviews by sentiment. -/
theorem extractHtmlLoop_partition (sn url uni today : String) (l : List (List Char)) :
    extractHtmlLoop sn url uni today l =
      ((((l.map cleanReviewHtml).filter (fun ct => htmlQualifies uni ct)).map
          (fun ct => mkHtmlReview sn url uni today ct)).filter
            (fun r => r.sentiment == "negative"),
       (((l.map cleanReviewHtml).filter (fun ct => htmlQualifies uni ct)).map
          (fun ct => mkHtmlReview sn url uni today ct)).filter
            (fun r => !(r.sentiment == "negative"))) := by
  induction l with
  | nil => rfl
  | cons h rest ih =>
    simp only [extractHtmlLoop, ih, List.map_cons, List.filter_cons]
    by_cases hq : htmlQualifies uni (cleanReviewHtml h)
    · simp only [hq, if_pos, List.map_cons, List.filter_cons]
      by_cases hs : (mkHtmlReview sn url uni today (cleanReviewHtml h)).sentiment = "negative"
      · simp [hs]
      · simp [hs]
    · simp [hq]

/-- C10: keyword sentiment takes only the three values negative, positive,
neutral; and in both the generic scraper and the raw-HTML extractor every
qualifying review item lands in the negative list exactly when its sentiment
is "negative" while every other item — the neutral ones included — lands in
the positive list, so no qualifying item is dropped. -/
theorem reviews_partition_by_sentiment :
    ∀ (text_elements : List String) (html_content sn url uni today : String),
      (∀ t : String, analyze_review_sentiment t = "negative" ∨
        analyze_review_sentiment t = "positive" ∨ analyze_review_sentiment t = "neutral") ∧
      (let qualifying := (text_elements.filter (fun t => genericQualifies uni t)).map
          (fun t => mkGenericReview sn url uni today t)
       scrape_generic_reviews text_elements sn url uni today =
         (qualifying.filter (fun r => r.sentiment == "negative"),
          qualifying.filter (fun r => !(r.sentiment == "negative")))) ∧
      (let cleaned := (((foundReviews html_content).take 10).map cleanReviewHtml).filter
          (fun ct => htmlQualifies uni ct)
       let items := cleaned.map (fun ct => mkHtmlReview sn url uni today ct)
       extract_reviews_from_html html_content sn url uni today =
         (items.filter (fun r => r.sentiment == "negative"),
          items.filter (fun r => !(r.sentiment == "negative")))) := by
  intro text_elements html_content sn url uni today
  refine ⟨?_, ?_, ?_⟩
  · intro t
    unfold analyze_review_sentiment
    dsimp only
    split_ifs <;> simp
  · exact scrapeGenericLoop_partition sn url uni today text_elements
  · exact extractHtmlLoop_partition sn url uni today ((foundReviews html_content).take 10)
